import Mathlib

/-!
Shallow embedding of the contact-form submission pipeline of the
Personal-Portfolio repository (src/main_potfolio.js, which contains both the
client-side script and the server-side `process_form.php` handler).

Conventions of the embedding:
* PHP strings and JS strings are modelled as Lean `String`; lengths
  (`strlen` on the server, `.length` on the client) are modelled by
  `String.length`.  The claims only exercise ASCII data, where PHP's byte
  count, JS's UTF-16 unit count and Lean's codepoint count coincide.
* The server handler's five field values are taken after `sanitizeInput`
  (config.php, not part of the repository sources); every claim about the
  server validator quantifies over the already-sanitized values, so the
  sanitizer itself needs no model.  The honeypot field `website` is read
  raw from `$_POST` by the handler and is modelled raw.
* Database side effects are recorded in an explicit `DbTrace`; the
  behaviour of the (external) database is a `DbBehavior` oracle.
-/

set_option autoImplicit false

namespace Portfolio

/-- PHP `empty($s)` for a string value: true exactly on `""` and `"0"`. -/
def phpEmpty (s : String) : Bool :=
  s == "" || s == "0"

/-- The character class `\s` of JavaScript regular expressions (also the
whitespace set removed by JS `String.prototype.trim`). -/
def jsSpace (c : Char) : Bool :=
  c == ' ' || c == '\t' || c == '\n' || c == '\r' ||
  c == '\u000B' || c == '\u000C' || c == '\u00A0' || c == '\u1680' ||
  (decide ('\u2000' ≤ c) && decide (c ≤ '\u200A')) ||
  c == '\u2028' || c == '\u2029' || c == '\u202F' || c == '\u205F' ||
  c == '\u3000' || c == '\uFEFF'

/-- JS `String.prototype.trim`: strip `jsSpace` characters from both ends. -/
def jsTrim (s : String) : String :=
  String.mk (((s.data.dropWhile jsSpace).reverse.dropWhile jsSpace).reverse)

/-- The character class `[^\s@]` used by the client email regex. -/
def emailChar (c : Char) : Bool :=
  !jsSpace c && c != '@'

/-- Split a character list at the first occurrence of `c`; `none` when `c`
does not occur. -/
def splitAtChar (c : Char) : List Char → Option (List Char × List Char)
  | [] => none
  | x :: xs =>
    if x = c then some ([], xs)
    else
      match splitAtChar c xs with
      | none => none
      | some p => some (x :: p.1, p.2)

/-- `hasDotNotLast l` holds when `l` contains a dot that is not its last
character, i.e. `l = B ++ '.' :: C` with `C` nonempty. -/
def hasDotNotLast : List Char → Bool
  | [] => false
  | [_] => false
  | c :: d :: rest => c == '.' || hasDotNotLast (d :: rest)

/-- `hasMidDot l` holds when `l` contains an interior dot, i.e.
`l = B ++ '.' :: C` with both `B` and `C` nonempty. -/
def hasMidDot : List Char → Bool
  | [] => false
  | _ :: rest => hasDotNotLast rest

/-- Executable matcher for the client regex `^[^\s@]+@[^\s@]+\.[^\s@]+$`
(src/main_potfolio.js, `isValidEmail`): a nonempty `@`-free, space-free
local part, one `@`, and a domain part that is `@`-free, space-free and
contains an interior dot. -/
def emailMatchL (s : List Char) : Bool :=
  match splitAtChar '@' s with
  | none => false
  | some p =>
    !p.1.isEmpty && p.1.all emailChar && p.2.all emailChar && hasMidDot p.2

/-- Client-side `isValidEmail` (src/main_potfolio.js lines 141-144). -/
def isValidEmail (email : String) : Bool :=
  emailMatchL email.data

/-- Modelled from the spec: `validateEmail` lives in config.php, which is not
among the repository sources; the spec requires the email to "match a
standard local@domain pattern", the same shape the client regex enforces, so
the server check is modelled by the same matcher. -/
def validateEmail (email : String) : Bool :=
  emailMatchL email.data

/-- The `local@domain` email shape, stated declaratively (the spec's words):
the string decomposes as `A ++ "@" ++ B ++ "." ++ C` with `A`, `B`, `C`
nonempty and free of whitespace and `@`. -/
def EmailShape (s : String) : Prop :=
  ∃ A B C : List Char,
    s.data = A ++ '@' :: (B ++ '.' :: C) ∧
    A ≠ [] ∧ B ≠ [] ∧ C ≠ [] ∧
    (∀ c ∈ A, emailChar c = true) ∧
    (∀ c ∈ B, emailChar c = true) ∧
    (∀ c ∈ C, emailChar c = true)

/-! ### Server-side validation (process_form.php lines 555-599)

Each field contributes at most one message via an `if/elseif` chain; the
five chains run one after the other, appending to a single `$errors` list. -/

/-- Full-name rule chain (lines 557-564). -/
def fullNameErrors (fullName : String) : List String :=
  if phpEmpty fullName then ["Full name is required."]
  else if fullName.length < 2 then ["Full name must be at least 2 characters long."]
  else if fullName.length > 100 then ["Full name must not exceed 100 characters."]
  else []

/-- Email rule chain (lines 566-573). -/
def emailErrors (email : String) : List String :=
  if phpEmpty email then ["Email address is required."]
  else if !validateEmail email then ["Please provide a valid email address."]
  else if email.length > 255 then ["Email address is too long."]
  else []

/-- Subject rule chain (lines 575-582). -/
def subjectErrors (subject : String) : List String :=
  if phpEmpty subject then ["Subject is required."]
  else if subject.length < 3 then ["Subject must be at least 3 characters long."]
  else if subject.length > 255 then ["Subject must not exceed 255 characters."]
  else []

/-- The `$validReasons` whitelist (line 585). -/
def validReasons : List String :=
  ["job", "project", "feedback", "other"]

/-- Reason rule chain (lines 584-590); `in_array` on this list of plain
non-numeric strings coincides with list membership. -/
def reasonErrors (reason : String) : List String :=
  if phpEmpty reason then ["Please select a reason for contact."]
  else if !validReasons.contains reason then ["Invalid reason selected."]
  else []

/-- Message rule chain (lines 592-599). -/
def messageErrors (message : String) : List String :=
  if phpEmpty message then ["Message is required."]
  else if message.length < 10 then ["Message must be at least 10 characters long."]
  else if message.length > 5000 then ["Message must not exceed 5000 characters."]
  else []

/-- The whole `$errors` accumulation, in source order: full name, email,
subject, reason, message. -/
def serverErrors (fullName email subject reason message : String) : List String :=
  fullNameErrors fullName ++ emailErrors email ++ subjectErrors subject ++
    reasonErrors reason ++ messageErrors message

/-! ### Server handler (process_form.php lines 527-725) -/

/-- JSON response payload together with the HTTP status code: `errors` is `[]`
when the key is absent, `id` is `none` when absent. -/
structure Response where
  status : Nat
  success : Bool
  message : String
  errors : List String
  id : Option Nat
deriving DecidableEq

/-- Oracle for the external database collaborators: whether
`getDatabaseConnection`, `$conn->prepare` and `$stmt->execute` succeed, the
generated `$stmt->insert_id`, and the diagnostic strings carried by the
failure exceptions. -/
structure DbBehavior where
  connectOk : Bool
  prepareOk : Bool
  executeOk : Bool
  insertId : Nat
  connectError : String
  prepareError : String
  executeError : String
deriving DecidableEq

/-- Observable database side effects of one request. -/
structure DbTrace where
  connOpened : Bool
  connClosed : Bool
  inserted : Bool
deriving DecidableEq

/-- The trace of a request that never reaches the database phase. -/
def noDbTrace : DbTrace :=
  ⟨false, false, false⟩

/-- 405 payload (lines 527-534). -/
def methodNotAllowedResponse : Response :=
  ⟨405, false, "Method not allowed. Only POST requests are accepted.", [], none⟩

/-- 400 payload for validation failures (lines 602-610): the message joins
the violations with spaces (`implode(' ', $errors)`). -/
def validationFailureResponse (errors : List String) : Response :=
  ⟨400, false, "Validation failed: " ++ String.intercalate " " errors, errors, none⟩

/-- 400 payload for the honeypot rejection (lines 617-625). -/
def spamResponse : Response :=
  ⟨400, false, "Spam detected.", [], none⟩

/-- 500 message selection (lines 718-724): detailed diagnostic in debug mode,
generic retry message otherwise. -/
def dbFailMessage (debugMode : Bool) (detail : String) : String :=
  if debugMode then "Database error: " ++ detail
  else "An error occurred while processing your request. Please try again later."

/-- The honeypot condition `isset($_POST['website']) && !empty($_POST['website'])`
(line 617). -/
def honeypotTriggered : Option String → Bool
  | some w => !phpEmpty w
  | none => false

/-- The database phase (lines 634-725).  Four exit paths:
* `getDatabaseConnection` throws — `$conn` never set, the catch block closes
  nothing;
* `prepare` returns a falsy `$stmt` — the exception is thrown, the catch block
  skips the falsy `$stmt` and closes `$conn`;
* `execute` succeeds — `$stmt` and `$conn` are closed and the 200 payload with
  `insert_id` is returned;
* `execute` fails — the exception is thrown and the catch block closes both. -/
def persistPhase (db : DbBehavior) (debugMode : Bool) : Response × DbTrace :=
  if !db.connectOk then
    ⟨⟨500, false, dbFailMessage debugMode db.connectError, [], none⟩,
      ⟨false, false, false⟩⟩
  else if !db.prepareOk then
    ⟨⟨500, false,
        dbFailMessage debugMode ("Failed to prepare statement: " ++ db.prepareError),
        [], none⟩,
      ⟨true, true, false⟩⟩
  else if db.executeOk then
    ⟨⟨200, true, "Thank you for your message! I will get back to you soon.", [],
        some db.insertId⟩,
      ⟨true, true, true⟩⟩
  else
    ⟨⟨500, false,
        dbFailMessage debugMode ("Failed to insert data: " ++ db.executeError),
        [], none⟩,
      ⟨true, true, false⟩⟩

/-- The whole request handler: method gate, sanitized-field validation,
honeypot check, then the database phase.  The five field arguments are the
values after `sanitizeInput`; `website` is the raw optional honeypot field. -/
def handle (method : String) (fullName email subject reason message : String)
    (website : Option String) (db : DbBehavior) (debugMode : Bool) :
    Response × DbTrace :=
  if method ≠ "POST" then ⟨methodNotAllowedResponse, noDbTrace⟩
  else if serverErrors fullName email subject reason message ≠ [] then
    ⟨validationFailureResponse (serverErrors fullName email subject reason message),
      noDbTrace⟩
  else if honeypotTriggered website then ⟨spamResponse, noDbTrace⟩
  else persistPhase db debugMode

/-! ### Client-side controller (src/main_potfolio.js lines 179-229, 338-385) -/

/-- Client `validateForm`, reduced to its accept/reject verdict.  The source
sets `isValid = false` on any failed check; field order follows the source:
full name (nonempty after trim), email (nonempty and regex), reason (truthy,
i.e. nonempty, untrimmed), subject (nonempty after trim), message (nonempty
and at least 10 characters after trim). -/
def validateFormB (fullname email reason subject message : String) : Bool :=
  (jsTrim fullname != "") &&
  (jsTrim email != "" && isValidEmail (jsTrim email)) &&
  (reason != "") &&
  (jsTrim subject != "") &&
  (jsTrim message != "" && !decide ((jsTrim message).length < 10))

/-- State of the submit control: `disabled`, `textContent`, `style.opacity`. -/
structure ButtonState where
  disabled : Bool
  label : String
  opacity : String
deriving DecidableEq

/-- How the awaited fetch settles, as seen inside the submit handler's
`try` block. -/
inductive FetchOutcome where
  /-- `fetch` rejects: no response at all. -/
  | networkError : FetchOutcome
  /-- A response arrives with `response.ok` false. -/
  | httpNotOk : FetchOutcome
  /-- `response.ok` holds but `response.json()` rejects; the exception lands
  in the same catch block as a network error. -/
  | invalidJson : FetchOutcome
  /-- `response.ok` holds and the parsed body has the given `success` flag and
  optional `message` string. -/
  | serverReply : Bool → Option String → FetchOutcome
deriving DecidableEq

/-- What the handler displays. -/
inductive UiOutcome where
  /-- Local validation failed: fields annotated in place, no request. -/
  | fieldAnnotations : UiOutcome
  /-- `showSuccessMessage`. -/
  | successBanner : UiOutcome
  /-- `showSubmissionError` with the given text. -/
  | errorBanner : String → UiOutcome
deriving DecidableEq

/-- Result of one run of the submit handler. -/
structure SubmitResult where
  requestSent : Bool
  button : ButtonState
  ui : UiOutcome
deriving DecidableEq

/-- The message displayed for each settled outcome (lines 364-378);
`result.message || fallback` makes an absent or empty message fall back to
the generic failure text. -/
def submitOutcomeUi : FetchOutcome → UiOutcome
  | .networkError =>
    .errorBanner "Network error. Please check your connection and try again."
  | .invalidJson =>
    .errorBanner "Network error. Please check your connection and try again."
  | .httpNotOk => .errorBanner "Server error. Please try again later."
  | .serverReply true _ => .successBanner
  | .serverReply false msg =>
    .errorBanner
      (match msg with
       | some m => if m = "" then "Failed to send message. Please try again." else m
       | none => "Failed to send message. Please try again.")

/-- The submit handler (lines 338-385).  If local validation fails it returns
without a request.  Otherwise the control is put into the busy state
(`disabled`, label `"Sending..."`, opacity `"0.6"`), the request is issued,
the try/catch branches display the outcome, and the `finally` block
re-enables the control, restores `originalButtonText` and sets opacity back
to `"1"` on every path. -/
def submitHandler (fullname email reason subject message : String)
    (btn : ButtonState) (outcome : FetchOutcome) : SubmitResult :=
  if !validateFormB fullname email reason subject message then
    ⟨false, btn, .fieldAnnotations⟩
  else
    let originalButtonText := btn.label
    ⟨true, ⟨false, originalButtonText, "1"⟩, submitOutcomeUi outcome⟩

/-- A database oracle on which every external call succeeds. -/
def dbAllOk : DbBehavior :=
  ⟨true, true, true, 1, "", "", ""⟩

/-! ### Helper lemmas: the regex matcher realizes the `local@domain` shape -/

theorem splitAtChar_eq_some (c : Char) :
    ∀ l p q : List Char, splitAtChar c l = some (p, q) → l = p ++ c :: q := by
  intro l
  induction l with
  | nil => intro p q h; simp [splitAtChar] at h
  | cons x xs ih =>
    intro p q h
    by_cases hx : x = c
    · subst hx
      simp [splitAtChar] at h
      obtain ⟨hp, hq⟩ := h
      subst hp; subst hq; rfl
    · rw [splitAtChar, if_neg hx] at h
      cases hsplit : splitAtChar c xs with
      | none => rw [hsplit] at h; cases h
      | some pr =>
        rw [hsplit] at h
        simp only [Option.some.injEq, Prod.mk.injEq] at h
        obtain ⟨hp, hq⟩ := h
        have hxs := ih pr.1 pr.2 (by rw [hsplit])
        subst hp; subst hq
        simp [hxs]

theorem splitAtChar_append (c : Char) :
    ∀ p q : List Char, c ∉ p → splitAtChar c (p ++ c :: q) = some (p, q) := by
  intro p
  induction p with
  | nil => intro q _; simp [splitAtChar]
  | cons a p' ih =>
    intro q hc
    have ha : a ≠ c := fun h => hc (h ▸ List.mem_cons_self a p')
    have hm : c ∉ p' := fun h => hc (List.mem_cons_of_mem a h)
    show splitAtChar c (a :: (p' ++ c :: q)) = some (a :: p', q)
    rw [splitAtChar, if_neg ha, ih q hm]

theorem hasDotNotLast_iff :
    ∀ l : List Char, hasDotNotLast l = true ↔ ∃ B C, l = B ++ '.' :: C ∧ C ≠ [] := by
  intro l
  induction l with
  | nil =>
    simp only [hasDotNotLast]
    constructor
    · intro h; cases h
    · rintro ⟨B, C, h, hC⟩
      exact absurd (List.append_eq_nil.mp h.symm).2 (List.cons_ne_nil _ _)
  | cons x rest ih =>
    cases rest with
    | nil =>
      simp only [hasDotNotLast]
      constructor
      · intro h; cases h
      · rintro ⟨B, C, h, hC⟩
        cases B with
        | nil =>
          simp only [List.nil_append, List.cons.injEq] at h
          exact absurd h.2.symm hC
        | cons b B' =>
          simp only [List.cons_append, List.cons.injEq] at h
          exact absurd (List.append_eq_nil.mp h.2.symm).2 (List.cons_ne_nil _ _)
    | cons d rest' =>
      simp only [hasDotNotLast, Bool.or_eq_true, beq_iff_eq]
      constructor
      · rintro (hx | hrec)
        · exact ⟨[], d :: rest', by rw [hx]; rfl, List.cons_ne_nil _ _⟩
        · obtain ⟨B, C, heq, hC⟩ := ih.mp hrec
          exact ⟨x :: B, C, by rw [List.cons_append, ← heq], hC⟩
      · rintro ⟨B, C, heq, hC⟩
        cases B with
        | nil =>
          simp only [List.nil_append, List.cons.injEq] at heq
          exact Or.inl heq.1
        | cons b B' =>
          simp only [List.cons_append, List.cons.injEq] at heq
          exact Or.inr (ih.mpr ⟨B', C, heq.2, hC⟩)

theorem hasMidDot_iff :
    ∀ l : List Char,
      hasMidDot l = true ↔ ∃ B C, l = B ++ '.' :: C ∧ B ≠ [] ∧ C ≠ [] := by
  intro l
  cases l with
  | nil =>
    simp only [hasMidDot]
    constructor
    · intro h; cases h
    · rintro ⟨B, C, h, hB, hC⟩
      exact absurd (List.append_eq_nil.mp h.symm).2 (List.cons_ne_nil _ _)
  | cons x rest =>
    simp only [hasMidDot]
    rw [hasDotNotLast_iff]
    constructor
    · rintro ⟨B, C, heq, hC⟩
      exact ⟨x :: B, C, by rw [List.cons_append, ← heq], List.cons_ne_nil _ _, hC⟩
    · rintro ⟨B, C, heq, hB, hC⟩
      cases B with
      | nil => exact absurd rfl hB
      | cons b B' =>
        simp only [List.cons_append, List.cons.injEq] at heq
        exact ⟨B', C, heq.2, hC⟩

theorem emailChar_at : emailChar '@' = false := by decide

theorem emailChar_dot : emailChar '.' = true := by decide

theorem not_at_mem {A : List Char} (hA : ∀ c ∈ A, emailChar c = true) : '@' ∉ A :=
  fun hm => by have h := hA '@' hm; rw [emailChar_at] at h; cases h

theorem emailShape_iff (s : String) : isValidEmail s = true ↔ EmailShape s := by
  unfold isValidEmail emailMatchL EmailShape
  cases h : splitAtChar '@' s.data with
  | none =>
    constructor
    · intro hf; cases hf
    · rintro ⟨A, B, C, hs, hA, hB, hC, hAc, hBc, hCc⟩
      have hsplit := splitAtChar_append '@' A (B ++ '.' :: C) (not_at_mem hAc)
      rw [hs, hsplit] at h
      cases h
  | some p =>
    obtain ⟨loc, dom⟩ := p
    have hsdata := splitAtChar_eq_some '@' s.data loc dom h
    constructor
    · intro hm
      simp only [Bool.and_eq_true] at hm
      obtain ⟨⟨⟨hne, hlocAll⟩, hdomAll⟩, hdot⟩ := hm
      obtain ⟨B, C, hdom, hB, hC⟩ := (hasMidDot_iff dom).mp hdot
      have hloc : loc ≠ [] := by
        cases loc with
        | nil => cases hne
        | cons a l => exact List.cons_ne_nil a l
      refine ⟨loc, B, C, by rw [hsdata, hdom], hloc, hB, hC, ?_, ?_, ?_⟩
      · exact fun c hc => List.all_eq_true.mp hlocAll c hc
      · intro c hc
        exact List.all_eq_true.mp hdomAll c (by rw [hdom]; exact List.mem_append_left _ hc)
      · intro c hc
        refine List.all_eq_true.mp hdomAll c ?_
        rw [hdom]
        exact List.mem_append_right _ (List.mem_cons_of_mem _ hc)
    · rintro ⟨A, B, C, hs, hA, hB, hC, hAc, hBc, hCc⟩
      have hsplit := splitAtChar_append '@' A (B ++ '.' :: C) (not_at_mem hAc)
      rw [hs, hsplit] at h
      simp only [Option.some.injEq, Prod.mk.injEq] at h
      obtain ⟨hlocA, hdomBC⟩ := h
      subst hlocA; subst hdomBC
      simp only [Bool.and_eq_true]
      refine ⟨⟨⟨?_, ?_⟩, ?_⟩, ?_⟩
      · cases A with
        | nil => exact absurd rfl hA
        | cons a l => rfl
      · exact List.all_eq_true.mpr hAc
      · refine List.all_eq_true.mpr fun c hc => ?_
        rcases List.mem_append.mp hc with hcB | hcC
        · exact hBc c hcB
        · rcases List.mem_cons.mp hcC with hcd | hcC'
          · rw [hcd]; exact emailChar_dot
          · exact hCc c hcC'
      · exact (hasMidDot_iff _).mpr ⟨B, C, rfl, hB, hC⟩

/-! ### Helper lemmas: field validators -/

theorem phpEmpty_false {s : String} (h : phpEmpty s = false) : s ≠ "" ∧ s ≠ "0" := by
  simpa [phpEmpty] using h

theorem phpEmpty_length {s : String} (h : phpEmpty s = true) : s.length ≤ 1 := by
  rcases (by simpa [phpEmpty] using h : s = "" ∨ s = "0") with h' | h' <;> subst h' <;> decide

theorem fullNameErrors_nil {f : String} :
    fullNameErrors f = [] ↔ phpEmpty f = false ∧ 2 ≤ f.length ∧ f.length ≤ 100 := by
  unfold fullNameErrors
  split_ifs with h1 h2 h3 <;> simp_all

theorem emailErrors_nil {e : String} :
    emailErrors e = [] ↔ phpEmpty e = false ∧ validateEmail e = true ∧ e.length ≤ 255 := by
  unfold emailErrors
  split_ifs with h1 h2 h3 <;> simp_all

theorem subjectErrors_nil {s : String} :
    subjectErrors s = [] ↔ phpEmpty s = false ∧ 3 ≤ s.length ∧ s.length ≤ 255 := by
  unfold subjectErrors
  split_ifs with h1 h2 h3 <;> simp_all

theorem reasonErrors_nil {r : String} :
    reasonErrors r = [] ↔ phpEmpty r = false ∧ r ∈ validReasons := by
  unfold reasonErrors
  split_ifs with h1 h2 <;> simp_all [List.contains]

theorem messageErrors_nil {m : String} :
    messageErrors m = [] ↔ phpEmpty m = false ∧ 10 ≤ m.length ∧ m.length ≤ 5000 := by
  unfold messageErrors
  split_ifs with h1 h2 h3 <;> simp_all

theorem serverErrors_nil {f e s r m : String} :
    serverErrors f e s r m = [] ↔
      fullNameErrors f = [] ∧ emailErrors e = [] ∧ subjectErrors s = [] ∧
      reasonErrors r = [] ∧ messageErrors m = [] := by
  unfold serverErrors
  simp [List.append_eq_nil, and_assoc]

theorem isValidEmail_eq_validateEmail (e : String) : isValidEmail e = validateEmail e :=
  rfl

theorem validateEmail_shape_iff (e : String) : validateEmail e = true ↔ EmailShape e :=
  emailShape_iff e

/-! ### Claims -/

/-- C3: for the input `{fullname:"J", email:"bad-email", subject:"Hi",
reason:"", message:"short"}` the server answers 400 with `success = false`
and an errors list holding the name-length, email-format, subject-length,
reason-required and message-length violations simultaneously; the rules are
evaluated independently, not short-circuited. -/
theorem scenarioB_reports_all_violations (db : DbBehavior) (dbg : Bool) :
    (handle "POST" "J" "bad-email" "Hi" "" "short" none db dbg).1.status = 400 ∧
    (handle "POST" "J" "bad-email" "Hi" "" "short" none db dbg).1.success = false ∧
    (handle "POST" "J" "bad-email" "Hi" "" "short" none db dbg).1.errors =
      ["Full name must be at least 2 characters long.",
       "Please provide a valid email address.",
       "Subject must be at least 3 characters long.",
       "Please select a reason for contact.",
       "Message must be at least 10 characters long."] ∧
    (handle "POST" "J" "bad-email" "Hi" "" "short" none db dbg).2 = noDbTrace :=
  ⟨rfl, rfl, rfl, rfl⟩

/-- C5 counterexample: the sanitized reason `"0"` is non-empty and outside
the whitelist, yet the validator reports the required-reason message, not
the invalid-reason one, because PHP `empty("0")` is true. -/
theorem reason_zero_string_gets_required_message :
    ("0" : String) ≠ "" ∧ "0" ∉ validReasons ∧
    reasonErrors "0" = ["Please select a reason for contact."] ∧
    "Invalid reason selected." ∉ reasonErrors "0" :=
  ⟨by decide, by decide, rfl, by decide⟩

/-- C5 (amended): the reason check accepts exactly the four whitelist values,
case-sensitively; every value outside the whitelist is rejected, and every
such value that PHP does not treat as empty (i.e. other than `""` and `"0"`)
draws the invalid-reason violation. -/
theorem reason_enum_membership (r : String) :
    (r ∈ validReasons → reasonErrors r = []) ∧
    (phpEmpty r = false → r ∉ validReasons →
      reasonErrors r = ["Invalid reason selected."]) ∧
    (r ∉ validReasons → reasonErrors r ≠ []) := by
  refine ⟨?_, ?_, ?_⟩
  · intro h
    simp only [validReasons, List.mem_cons, List.not_mem_nil, or_false] at h
    rcases h with h | h | h | h <;> subst h <;> rfl
  · intro hne hnm
    have hc : validReasons.contains r = false := by
      simp only [List.contains, Bool.eq_false_iff, ne_eq, List.elem_iff]
      exact hnm
    unfold reasonErrors
    rw [hne, hc]
    rfl
  · intro hnm
    unfold reasonErrors
    split_ifs with h1 h2 <;> simp_all [List.contains, List.elem_iff]

/-- C5 witness: `"job"` passes the reason check; `"Job"` (wrong case) draws
the invalid-reason violation. -/
theorem reason_enum_membership_witness :
    reasonErrors "job" = [] ∧ reasonErrors "Job" = ["Invalid reason selected."] :=
  ⟨(reason_enum_membership "job").1 (by decide),
   (reason_enum_membership "Job").2.1 (by decide) (by decide)⟩

/-- C6: exact message-length boundaries: 9 characters draws the minimum-length
violation, 10 characters passes every message rule, 5000 passes, and 5001
draws the maximum-length violation. -/
theorem message_length_boundaries (m : String) :
    (m.length = 9 → messageErrors m = ["Message must be at least 10 characters long."]) ∧
    (m.length = 10 → messageErrors m = []) ∧
    (m.length = 5000 → messageErrors m = []) ∧
    (m.length = 5001 → messageErrors m = ["Message must not exceed 5000 characters."]) := by
  refine ⟨?_, ?_, ?_, ?_⟩ <;>
    intro hlen <;>
    unfold messageErrors <;>
    split_ifs with h1 h2 h3 <;>
    first
      | rfl
      | exact absurd hlen (by omega)
      | exact absurd hlen (by have := phpEmpty_length h1; omega)

/-- C6 witness: concrete all-`a` messages of lengths 10 and 5001. -/
theorem message_length_boundaries_witness :
    messageErrors (String.mk (List.replicate 10 'a')) = [] ∧
    messageErrors (String.mk (List.replicate 5001 'a')) =
      ["Message must not exceed 5000 characters."] :=
  ⟨(message_length_boundaries _).2.1
      (by rw [String.length]; exact List.length_replicate 10 'a'),
   (message_length_boundaries _).2.2.2
      (by rw [String.length]; exact List.length_replicate 5001 'a')⟩

/-- C10: the server validator reports at most one violation per field (each
field's rules form an if/elseif chain, so only the first failing rule
contributes), hence the errors list never holds more than five entries, and
an empty field draws only its required message. -/
theorem at_most_one_violation_per_field (f e s r m : String) :
    (serverErrors f e s r m).length ≤ 5 ∧
    (fullNameErrors f).length ≤ 1 ∧
    (emailErrors e).length ≤ 1 ∧
    (subjectErrors s).length ≤ 1 ∧
    (reasonErrors r).length ≤ 1 ∧
    (messageErrors m).length ≤ 1 ∧
    (f = "" → fullNameErrors f = ["Full name is required."]) ∧
    (e = "" → emailErrors e = ["Email address is required."]) ∧
    (s = "" → subjectErrors s = ["Subject is required."]) ∧
    (r = "" → reasonErrors r = ["Please select a reason for contact."]) ∧
    (m = "" → messageErrors m = ["Message is required."]) := by
  have hf : (fullNameErrors f).length ≤ 1 := by
    unfold fullNameErrors; split_ifs <;> simp
  have he : (emailErrors e).length ≤ 1 := by
    unfold emailErrors; split_ifs <;> simp
  have hsj : (subjectErrors s).length ≤ 1 := by
    unfold subjectErrors; split_ifs <;> simp
  have hr : (reasonErrors r).length ≤ 1 := by
    unfold reasonErrors; split_ifs <;> simp
  have hmm : (messageErrors m).length ≤ 1 := by
    unfold messageErrors; split_ifs <;> simp
  refine ⟨?_, hf, he, hsj, hr, hmm, ?_, ?_, ?_, ?_, ?_⟩
  · unfold serverErrors
    simp only [List.length_append]
    omega
  · rintro rfl; rfl
  · rintro rfl; rfl
  · rintro rfl; rfl
  · rintro rfl; rfl
  · rintro rfl; rfl

/-- C10 witness: all-empty fields draw exactly the five required messages. -/
theorem at_most_one_violation_per_field_witness :
    fullNameErrors "" = ["Full name is required."] ∧
    messageErrors "" = ["Message is required."] ∧
    (serverErrors "" "" "" "" "").length ≤ 5 :=
  ⟨(at_most_one_violation_per_field "" "" "" "" "").2.2.2.2.2.2.1 rfl,
   (at_most_one_violation_per_field "" "" "" "" "").2.2.2.2.2.2.2.2.2.2 rfl,
   (at_most_one_violation_per_field "" "" "" "" "").1⟩

/-- C2 counterexample: the one-character name `"J"` with otherwise valid
fields is accepted by the client `validateForm` (which has no length-range
rules) but rejected by the server validator, so the two are not equivalent. -/
theorem client_server_validation_not_equivalent :
    validateFormB "J" "a@b.c" "job" "abc" "this is a message" = true ∧
    serverErrors "J" "a@b.c" "abc" "job" "this is a message" ≠ [] :=
  ⟨by decide, by decide⟩

/-- C2 (amended): the client validator is strictly weaker than the server
validator: on trim-invariant (sanitized) values, whenever the server
validation produces an empty error list the client accepts the same values;
the converse fails (`client_server_validation_not_equivalent`). -/
theorem server_accepts_implies_client_accepts
    (f e r s m : String)
    (htf : jsTrim f = f) (hte : jsTrim e = e) (hts : jsTrim s = s) (htm : jsTrim m = m)
    (hserver : serverErrors f e s r m = []) :
    validateFormB f e r s m = true := by
  obtain ⟨h1, h2, h3, h4, h5⟩ := serverErrors_nil.mp hserver
  obtain ⟨h1e, h1l, _⟩ := fullNameErrors_nil.mp h1
  obtain ⟨h2e, h2v, _⟩ := emailErrors_nil.mp h2
  obtain ⟨h3e, h3l, _⟩ := subjectErrors_nil.mp h3
  obtain ⟨h4e, _⟩ := reasonErrors_nil.mp h4
  obtain ⟨h5e, h5l, _⟩ := messageErrors_nil.mp h5
  unfold validateFormB
  rw [htf, hte, hts, htm]
  simp only [Bool.and_eq_true, bne_iff_ne, ne_eq, Bool.not_eq_true',
    decide_eq_false_iff_not]
  refine ⟨⟨⟨⟨(phpEmpty_false h1e).1, (phpEmpty_false h2e).1, ?_⟩,
    (phpEmpty_false h4e).1⟩, (phpEmpty_false h3e).1⟩,
    (phpEmpty_false h5e).1, by omega⟩
  rw [isValidEmail_eq_validateEmail]
  exact h2v

/-- C2 witness: the spec's scenario-A values are accepted by the server
validator and hence by the client validator. -/
theorem server_accepts_implies_client_accepts_witness :
    validateFormB "Jane Doe" "jane@example.com" "job" "Hello"
      "I would like to connect regarding an opportunity." = true :=
  server_accepts_implies_client_accepts "Jane Doe" "jane@example.com" "job" "Hello"
    "I would like to connect regarding an opportunity."
    (by decide) (by decide) (by decide) (by decide) (by decide)

/-- C4 counterexample: the empty email does not match the `local@domain`
shape, yet the validator reports the required-email message, not the
email-format one, because the `empty` check precedes the format check. -/
theorem email_format_message_absent_for_empty :
    ¬EmailShape "" ∧ emailErrors "" = ["Email address is required."] ∧
    "Please provide a valid email address." ∉ emailErrors "" :=
  ⟨fun h => absurd ((emailShape_iff "").mpr h) (by decide), rfl, by decide⟩

/-- C4 (amended): the client regex accepts exactly the `local@domain` shape;
on the server, every email that is not PHP-empty and does not match the shape
draws exactly the email-format message, and every email matching the shape
with length at most 255 passes the whole email chain. -/
theorem email_shape_characterizes_format_check (e : String) :
    (isValidEmail e = true ↔ EmailShape e) ∧
    (¬EmailShape e → phpEmpty e = false →
      emailErrors e = ["Please provide a valid email address."]) ∧
    (EmailShape e → e.length ≤ 255 → emailErrors e = []) := by
  refine ⟨emailShape_iff e, ?_, ?_⟩
  · intro hn hne
    have hv : validateEmail e = false := by
      cases h : validateEmail e
      · rfl
      · exact absurd ((validateEmail_shape_iff e).mp h) hn
    unfold emailErrors
    rw [hne, hv]
    rfl
  · intro hsh hlen
    have hv : validateEmail e = true := (validateEmail_shape_iff e).mpr hsh
    have hne : phpEmpty e = false := by
      cases h : phpEmpty e
      · rfl
      · rcases (by simpa [phpEmpty] using h : e = "" ∨ e = "0") with h' | h' <;>
          subst h' <;> exact absurd hv (by decide)
    have c1 : ¬(phpEmpty e = true) := by rw [hne]; decide
    have c2 : ¬((!validateEmail e) = true) := by rw [hv]; decide
    have c3 : ¬(e.length > 255) := by omega
    unfold emailErrors
    rw [if_neg c1, if_neg c2, if_neg c3]

/-- C4 witness: `"jane@example.com"` matches the shape and passes the chain;
`"bad-email"` does not match and draws the format message. -/
theorem email_shape_characterizes_format_check_witness :
    emailErrors "jane@example.com" = [] ∧
    emailErrors "bad-email" = ["Please provide a valid email address."] :=
  ⟨(email_shape_characterizes_format_check "jane@example.com").2.2
      ((email_shape_characterizes_format_check "jane@example.com").1.mp (by decide))
      (by decide),
   (email_shape_characterizes_format_check "bad-email").2.1
      (fun h =>
        absurd ((email_shape_characterizes_format_check "bad-email").1.mpr h)
          (by decide))
      (by decide)⟩

/-- C1 counterexample: a POST with the honeypot field set to
`"http://spam.example"` but invalid form fields is answered with the
validation-failure response, not the spam response: the honeypot check runs
only after validation passes. -/
theorem honeypot_spam_not_unconditional :
    phpEmpty "http://spam.example" = false ∧
    (handle "POST" "J" "bad-email" "Hi" "" "short" (some "http://spam.example")
        dbAllOk false).1 ≠ spamResponse ∧
    (handle "POST" "J" "bad-email" "Hi" "" "short" (some "http://spam.example")
        dbAllOk false).1.message ≠ spamResponse.message :=
  ⟨rfl, by decide, by decide⟩

/-- C1 (amended): for every POST whose five sanitized fields pass validation
and whose honeypot field `website` is set and non-empty in PHP's sense
(neither `""` nor `"0"`), the response is the generic spam-detected response
(400, `success = false`) and nothing touches the database. -/
theorem honeypot_spam_after_validation
    (f e s r m w : String) (db : DbBehavior) (dbg : Bool)
    (hval : serverErrors f e s r m = [])
    (hw : phpEmpty w = false) :
    handle "POST" f e s r m (some w) db dbg = ⟨spamResponse, noDbTrace⟩ := by
  unfold handle
  rw [hval]
  simp only [honeypotTriggered, hw]
  rfl

/-- C1 witness: scenario C — valid fields, honeypot `"http://spam.example"`. -/
theorem honeypot_spam_after_validation_witness :
    handle "POST" "Jane Doe" "jane@example.com" "Hello" "job"
      "I would like to connect regarding an opportunity."
      (some "http://spam.example") dbAllOk false = ⟨spamResponse, noDbTrace⟩ :=
  honeypot_spam_after_validation "Jane Doe" "jane@example.com" "Hello" "job"
    "I would like to connect regarding an opportunity." "http://spam.example"
    dbAllOk false (by decide) (by decide)

/-- C7: every rejecting response issued before the database phase — wrong
method (405), validation failure (400) or spam (400) — opens no database
connection and inserts no row. -/
theorem rejection_paths_touch_no_database
    (method f e s r m : String) (w : Option String) (db : DbBehavior) (dbg : Bool)
    (h : (handle method f e s r m w db dbg).1.status = 405 ∨
         (handle method f e s r m w db dbg).1.status = 400) :
    (handle method f e s r m w db dbg).2.connOpened = false ∧
    (handle method f e s r m w db dbg).2.inserted = false := by
  unfold handle at h ⊢
  split_ifs at h ⊢ <;> try exact ⟨rfl, rfl⟩
  unfold persistPhase at h ⊢
  split_ifs at h ⊢ <;>
    simp_all [methodNotAllowedResponse, validationFailureResponse, spamResponse]

/-- C7 witness: a GET request is rejected with 405 and leaves no trace. -/
theorem rejection_paths_touch_no_database_witness :
    (handle "GET" "" "" "" "" "" none dbAllOk false).2.connOpened = false ∧
    (handle "GET" "" "" "" "" "" none dbAllOk false).2.inserted = false :=
  rejection_paths_touch_no_database "GET" "" "" "" "" "" none dbAllOk false
    (Or.inl (by decide))

/-- C8: on every exit path of the database phase — success, preparation
failure, execute failure, or a connection-time exception — a connection that
was opened is closed before the handler returns. -/
theorem connection_closed_on_every_exit
    (method f e s r m : String) (w : Option String) (db : DbBehavior) (dbg : Bool)
    (h : (handle method f e s r m w db dbg).2.connOpened = true) :
    (handle method f e s r m w db dbg).2.connClosed = true := by
  unfold handle at h ⊢
  split_ifs at h ⊢ <;>
    first
      | simp [noDbTrace] at h
      | (unfold persistPhase at h ⊢
         split_ifs at h ⊢ <;> simp_all)

/-- C8 witness: an execute failure still closes the opened connection. -/
theorem connection_closed_on_every_exit_witness :
    (handle "POST" "Jane Doe" "jane@example.com" "Hello" "job"
      "I would like to connect regarding an opportunity." none
      ⟨true, true, false, 0, "", "", "boom"⟩ false).2.connClosed = true :=
  connection_closed_on_every_exit "POST" "Jane Doe" "jane@example.com" "Hello"
    "job" "I would like to connect regarding an opportunity." none
    ⟨true, true, false, 0, "", "", "boom"⟩ false (by decide)

/-- C9: whenever local validation passes (so the request is issued), the
submit control is re-enabled with its original label and full opacity after
the request settles, on every outcome path: parsed success, parsed failure,
non-ok HTTP response, JSON parse failure, or network error. -/
theorem submit_control_restored_after_settle
    (f e r s m : String) (btn : ButtonState) (outcome : FetchOutcome)
    (hv : validateFormB f e r s m = true)
    (hd : btn.disabled = false) (ho : btn.opacity = "1") :
    (submitHandler f e r s m btn outcome).requestSent = true ∧
    (submitHandler f e r s m btn outcome).button = btn := by
  unfold submitHandler
  rw [hv]
  refine ⟨rfl, ?_⟩
  cases btn
  simp_all

/-- C9 witness: scenario-A values with a network error still restore the
submit control. -/
theorem submit_control_restored_after_settle_witness :
    (submitHandler "Jane Doe" "jane@example.com" "job" "Hello"
      "I would like to connect regarding an opportunity."
      ⟨false, "Send Message", "1"⟩ FetchOutcome.networkError).requestSent = true ∧
    (submitHandler "Jane Doe" "jane@example.com" "job" "Hello"
      "I would like to connect regarding an opportunity."
      ⟨false, "Send Message", "1"⟩ FetchOutcome.networkError).button =
      ⟨false, "Send Message", "1"⟩ :=
  submit_control_restored_after_settle "Jane Doe" "jane@example.com" "job" "Hello"
    "I would like to connect regarding an opportunity."
    ⟨false, "Send Message", "1"⟩ FetchOutcome.networkError (by decide) rfl rfl

end Portfolio
